import Mathlib

/-!
Verification of the payment classification and report-assembly engine of the
remindme repository, against its natural-language specification.

The embedding translates the final revision of the Go source
(Payment, ToDate, DiffFromNowInDays, FindPaymentsAt, FindPaymentsUntil,
the Summarize functions, the report assembly in run, and readPayments).

Representation choices:
- An instant (Go time.Time) is an Int counting seconds since the Unix epoch.
  Every instant handled by the core (parsed dates, Athens midnights, the zero
  time value) is a whole number of seconds.
- The Europe/Athens timezone (Go LoadLocation plus the IANA database) is
  modelled by the current EU daylight-saving rule applied to every year:
  summer time from the last Sunday of March, 01:00 UTC, to the last Sunday
  of October, 01:00 UTC; offset 10800 seconds in summer, 7200 otherwise.
  This matches the IANA data for Europe/Athens for all years since 1997.
- Go Sub on time.Time saturates at the int64 nanosecond range; subNs models
  that exactly.
- The conversion int(d.Hours() / 24) in Go computes, in float64, the value
  ns / 86400e9 and truncates toward zero.  For every value reachable in this
  program (differences of Athens midnights are whole hours, and the two
  saturation constants) the float64 computation is exact enough that the
  result equals truncated integer division of the nanosecond count by
  86400e9, which is how durationToDays is defined.
-/

/-! ## Calendar arithmetic (model of the Go time package internals) -/

/-- Proleptic Gregorian leap-year test, as used by Go time. -/
def isLeap (y : Int) : Bool := (y % 4 == 0 && y % 100 != 0) || y % 400 == 0

/-- Days in the months before month m of year y (m in 1..12). -/
def daysBeforeMonth (y m : Int) : Int :=
  let base :=
    if m = 1 then 0 else if m = 2 then 31 else if m = 3 then 59
    else if m = 4 then 90 else if m = 5 then 120 else if m = 6 then 151
    else if m = 7 then 181 else if m = 8 then 212 else if m = 9 then 243
    else if m = 10 then 273 else if m = 11 then 304 else 334
  if 3 ≤ m && isLeap y then base + 1 else base

/-- Number of days in month m of year y, as validated by Go time.Parse. -/
def daysIn (y m : Int) : Int :=
  if m = 2 then (if isLeap y then 29 else 28)
  else if m = 4 ∨ m = 6 ∨ m = 9 ∨ m = 11 then 30
  else 31

/-- Leap days in years 1..y (proleptic for negative y). -/
def leapsThrough (y : Int) : Int := y / 4 - y / 100 + y / 400

/-- Day number of the civil date (y, m, d), counted from 1970-01-01 = 0,
proleptic Gregorian. -/
def unixDays (y m d : Int) : Int :=
  365 * (y - 1) + leapsThrough (y - 1) + daysBeforeMonth y m + (d - 1) - 719162

/-- Civil date (year, month, day) of a day number counted from 1970-01-01.
Standard days-to-civil algorithm; used only to read off the year of an
instant when deciding daylight-saving status. -/
def civilFromDays (z : Int) : Int × Int × Int :=
  let z := z + 719468
  let era := z / 146097
  let doe := z - era * 146097
  let yoe := (doe - doe / 1460 + doe / 36524 - doe / 146096) / 365
  let y := yoe + era * 400
  let doy := doe - (365 * yoe + yoe / 4 - yoe / 100)
  let mp := (5 * doy + 2) / 153
  let d := doy - (153 * mp + 2) / 5 + 1
  let m := mp + (if mp < 10 then 3 else -9)
  (y + (if m ≤ 2 then 1 else 0), m, d)

/-- UTC calendar year of an instant. -/
def utcYear (t : Int) : Int := (civilFromDays (t / 86400)).1

/-- Day number of the last Sunday on or before the given day number.
1970-01-01 was a Thursday. -/
def lastSundayOnOrBefore (n : Int) : Int := n - (n + 4) % 7

/-- Instant at which summer time starts in year y: last Sunday of March,
01:00 UTC (EU rule, as in the IANA data for Europe/Athens since 1997). -/
def athensDSTStart (y : Int) : Int :=
  lastSundayOnOrBefore (unixDays y 3 31) * 86400 + 3600

/-- Instant at which summer time ends in year y: last Sunday of October,
01:00 UTC. -/
def athensDSTEnd (y : Int) : Int :=
  lastSundayOnOrBefore (unixDays y 10 31) * 86400 + 3600

/-- Whether Europe/Athens observes summer time at instant t. -/
def athensIsDST (t : Int) : Bool :=
  let y := utcYear t
  athensDSTStart y ≤ t && t < athensDSTEnd y

/-- UTC offset of Europe/Athens, in seconds, at instant t.  Models the
location handle returned by GreekTimeZone. -/
def athensOffset (t : Int) : Int := if athensIsDST t then 10800 else 7200

/-- Athens civil day number (days since 1970-01-01 on the Athens calendar)
of instant t.  Models Year()/Month()/Day() of t.In(GreekTimeZone()). -/
def localDay (t : Int) : Int := (t + athensOffset t) / 86400

/-- UTC offset in effect at 00:00 Athens wall time of Athens day n.
Transitions happen at 03:00/04:00 wall time, so midnight is unambiguous. -/
def offAtMidnight (n : Int) : Int :=
  if athensIsDST (n * 86400 - 7200) then 10800 else 7200

/-- Instant of 00:00 Athens wall time on Athens day n.  Models
time.Date(y, m, d, 0, 0, 0, 0, GreekTimeZone()). -/
def midnightOfDay (n : Int) : Int := n * 86400 - offAtMidnight n

/-- ToDate from the source: truncate an instant to midnight, Athens calendar,
of its own Athens civil day. -/
def ToDate (t : Int) : Int := midnightOfDay (localDay t)

/-! ## Durations (model of time.Duration and Sub) -/

/-- Largest Go time.Duration, in nanoseconds. -/
def maxDuration : Int := 9223372036854775807

/-- Smallest Go time.Duration, in nanoseconds. -/
def minDuration : Int := -9223372036854775808

/-- t.Sub(u) for instants given in seconds: the difference in nanoseconds,
saturated at the int64 range exactly as Go time.Time.Sub saturates. -/
def subNs (t u : Int) : Int :=
  let d := (t - u) * 1000000000
  if d > maxDuration then maxDuration
  else if d < minDuration then minDuration
  else d

/-- int(d.Hours() / 24) for a duration in nanoseconds: truncated (toward
zero) division by the nanoseconds in 24 hours. -/
def durationToDays (ns : Int) : Int := Int.tdiv ns 86400000000000

/-! ## Payment entity -/

/-- The instant stored in the zero value time.Time{}: 0001-01-01 00:00:00 UTC,
in seconds since the Unix epoch. -/
def zeroTimeSec : Int := -62135596800

/-- Payment from the source.  The Go field due is a time.Time that is either
the zero value (never set) or an Athens midnight produced by WithDueDate;
since a time produced by time.Date with the Athens location never compares
equal to time.Time{}, the field is represented as an Option: none models the
zero value. -/
structure Payment where
  description : String
  due : Option Int
deriving DecidableEq, Repr

/-- NewPayment from the source: description only, zero due date. -/
def NewPayment (description : String) : Payment :=
  { description := description, due := none }

/-- WithDueDate from the source: stores ToDate(due.In(GreekTimeZone())). -/
def WithDueDate (p : Payment) (due : Int) : Payment :=
  { p with due := some (ToDate due) }

/-- IsDue from the source: p.due != time.Time{}. -/
def IsDue (p : Payment) : Bool := p.due.isSome

/-- The instant held in the due field, as Go reads it: the zero time value
when the due date was never set. -/
def dueInstant (p : Payment) : Int := p.due.getD zeroTimeSec

/-- DiffFromNowInDays from the source: normalize now to its Athens midnight,
subtract, convert to whole days. -/
def DiffFromNowInDays (p : Payment) (now : Int) : Int :=
  durationToDays (subNs (dueInstant p) (ToDate now))

/-! ## Classifier -/

/-- FindPaymentsAt from the source: keep payments that are due and whose
day delta equals diff; order preserved. -/
def FindPaymentsAt (payments : List Payment) (diff : Int) (now : Int) :
    List Payment :=
  payments.filter (fun p => IsDue p && decide (DiffFromNowInDays p now = diff))

/-- FindPaymentsUntil from the source: keep payments that are due and whose
day delta is at most maxDiff; order preserved. -/
def FindPaymentsUntil (payments : List Payment) (maxDiff : Int) (now : Int) :
    List Payment :=
  payments.filter
    (fun p => IsDue p && decide (DiffFromNowInDays p now ≤ maxDiff))

/-- The selection loop inside SummarizePaymentsComingUp: due payments with
day delta in [1, timeWindowInDays]. -/
def findComingUp (payments : List Payment) (timeWindowInDays : Int)
    (now : Int) : List Payment :=
  payments.filter (fun p =>
    IsDue p && decide (1 ≤ DiffFromNowInDays p now)
      && decide (DiffFromNowInDays p now ≤ timeWindowInDays))

/-- The counting loop inside SummarizeTotalPayments: number of payments,
due or not, whose day delta is at most timeWindowInDays. -/
def totalPendingCount (payments : List Payment) (timeWindowInDays : Int)
    (now : Int) : Nat :=
  payments.countP (fun p => decide (DiffFromNowInDays p now ≤ timeWindowInDays))

/-! ## Report assembly -/

/-- strings.Join from the Go standard library. -/
def goJoin (sep : String) : List String → String
  | [] => ""
  | [x] => x
  | x :: xs => x ++ sep ++ goJoin sep xs

/-- SummarizeDelayedPayments from the source.  The Go function reads
time.Now() itself; the instant is passed explicitly here. -/
def SummarizeDelayedPayments (payments : List Payment) (now : Int) : String :=
  let delayed := FindPaymentsUntil payments (-1) now
  if delayed.length > 0 then
    "⚠ Delayed: " ++ goJoin ", " (delayed.map Payment.description)
  else ""

/-- SummarizePaymentsForToday from the source. -/
def SummarizePaymentsForToday (payments : List Payment) (now : Int) : String :=
  let scheduled := FindPaymentsAt payments 0 now
  if scheduled.length > 0 then
    "💸 Today: " ++ goJoin ", " (scheduled.map Payment.description)
  else "😎 Nothing for today"

/-- SummarizePaymentsComingUp from the source. -/
def SummarizePaymentsComingUp (payments : List Payment)
    (timeWindowInDays : Int) (now : Int) : String :=
  let comingUp := findComingUp payments timeWindowInDays now
  if comingUp.length > 0 then
    "⏳ Coming Up (next " ++ toString timeWindowInDays ++ " days): "
      ++ goJoin ", " (comingUp.map Payment.description)
  else "😎 Nothing coming up (next " ++ toString timeWindowInDays ++ " days)"

/-- SummarizeTotalPayments from the source. -/
def SummarizeTotalPayments (payments : List Payment)
    (timeWindowInDays : Int) (now : Int) : String :=
  "💰 Total " ++ toString (totalPendingCount payments timeWindowInDays now)
    ++ " payments pending during the next " ++ toString timeWindowInDays
    ++ " days"

/-- The section list built in run: each summary is appended when non-empty,
in the fixed order delayed, today, coming up (window 2), total (window 30). -/
def assembleSections (payments : List Payment) (now : Int) : List String :=
  (if SummarizeDelayedPayments payments now ≠ "" then
      [SummarizeDelayedPayments payments now] else [])
    ++ (if SummarizePaymentsForToday payments now ≠ "" then
      [SummarizePaymentsForToday payments now] else [])
    ++ (if SummarizePaymentsComingUp payments 2 now ≠ "" then
      [SummarizePaymentsComingUp payments 2 now] else [])
    ++ (if SummarizeTotalPayments payments 30 now ≠ "" then
      [SummarizeTotalPayments payments 30 now] else [])

/-- The fallback and join at the end of run: an empty section list is
replaced by the fixed sentinel, then sections are joined with newlines. -/
def joinSections (sections : List String) : String :=
  goJoin "\n" (if sections.length = 0 then ["🕶  Nothing to report"] else sections)

/-- The report string assembled in run. -/
def buildReport (payments : List Payment) (now : Int) : String :=
  joinSections (assembleSections payments now)

/-! ## Row ingestion (readPayments from the source) -/

/-- The three column positions resolved from the header row; -1 means the
header text was not found. -/
structure ColumnIndices where
  description : Int
  dueDate : Int
  paymentDate : Int
deriving DecidableEq, Repr

/-- The header scan at the top of readPayments: one pass over rows[0],
assigning the index on every exact match, so a repeated header keeps the
last occurrence. -/
def resolveHeader (header : List String) : ColumnIndices :=
  (header.foldl
    (fun (st : ColumnIndices × Int) v =>
      let ci := st.1
      let idx := st.2
      let ci := if v = "Description" then { ci with description := idx } else ci
      let ci := if v = "Due Date" then { ci with dueDate := idx } else ci
      let ci := if v = "Payment Date" then { ci with paymentDate := idx } else ci
      (ci, idx + 1))
    (⟨-1, -1, -1⟩, 0)).1

/-- Cell access row[i].  Only evaluated with 0 ≤ i < row length, guarded by
the shape checks, exactly as the Go indexing is. -/
def cellAt (row : List String) (i : Int) : String := row.getD i.toNat ""

/-- Whether a list of characters is all ASCII digits. -/
def allDigits (cs : List Char) : Bool := cs.all Char.isDigit

/-- Numeric value of a list of ASCII digits. -/
def digitsVal (cs : List Char) : Int :=
  cs.foldl (fun acc c => 10 * acc + (Int.ofNat c.toNat - 48)) 0

/-- time.Parse with the layout 2006-01-02 (time.DateOnly): exactly four
digits, dash, two digits, dash, two digits; the month must be 1..12 and the
day must exist in that month of that year.  Returns the civil date. -/
def parseDateOnly (s : String) : Option (Int × Int × Int) :=
  match s.data with
  | [y1, y2, y3, y4, '-', m1, m2, '-', d1, d2] =>
    if allDigits [y1, y2, y3, y4, m1, m2, d1, d2] then
      let y := digitsVal [y1, y2, y3, y4]
      let m := digitsVal [m1, m2]
      let d := digitsVal [d1, d2]
      if 1 ≤ m ∧ m ≤ 12 ∧ 1 ≤ d ∧ d ≤ daysIn y m then some (y, m, d)
      else none
    else none
  | _ => none

/-- The instant produced by time.Parse(time.DateOnly, s): 00:00 UTC of the
parsed civil date. -/
def parseDueDate (s : String) : Option Int :=
  (parseDateOnly s).map (fun c => 86400 * unixDays c.1 c.2.1 c.2.2)

/-- The body of one iteration of the data loop in readPayments, for the row
at (zero-based) index idx: the three shape checks in source order, then the
settled-row skip, then the due-date handling.  Returns ok none when the row
is skipped, ok (some p) when it yields a payment, and the error of the
source otherwise.  Since the dueDate variable of the source is reassigned
before every use when the due-date column exists and is never read when it
does not, its cross-iteration persistence has no effect and it is read
per-row here. -/
def processRow (ci : ColumnIndices) (idx : Int) (row : List String) :
    Except String (Option Payment) :=
  if ci.description > (row.length : Int) - 1 then
    Except.error ("can not read description (column=" ++ toString ci.description
      ++ ") in row " ++ toString idx)
  else if ci.dueDate > (row.length : Int) - 1 then
    Except.error ("can not read due date (column=" ++ toString ci.dueDate
      ++ ") in row " ++ toString idx)
  else if ci.paymentDate > (row.length : Int) - 1 then
    Except.error ("can not read payment date (column=" ++ toString ci.paymentDate
      ++ ") in row " ++ toString idx)
  else
    let description := cellAt row ci.description
    let dueDate := if ci.dueDate ≥ 0 then cellAt row ci.dueDate else ""
    let paymentDate := cellAt row ci.paymentDate
    if paymentDate ≠ "" then
      Except.ok none
    else if ci.dueDate = -1 then
      Except.ok (some (NewPayment description))
    else
      match parseDueDate dueDate with
      | none =>
        Except.error ("failed to parse due date value " ++ dueDate
          ++ ": cannot parse as 2006-01-02")
      | some due => Except.ok (some (WithDueDate (NewPayment description) due))

/-- The data loop of readPayments over rows[1:], starting at row index idx,
collecting payments in order and stopping at the first error. -/
def readRows (ci : ColumnIndices) (idx : Int) :
    List (List String) → Except String (List Payment)
  | [] => Except.ok []
  | row :: rest =>
    match processRow ci idx row with
    | Except.error e => Except.error e
    | Except.ok none => readRows ci (idx + 1) rest
    | Except.ok (some p) =>
      match readRows ci (idx + 1) rest with
      | Except.error e => Except.error e
      | Except.ok ps => Except.ok (p :: ps)

/-- readPayments from the source.  The caller (getSheet) guarantees at least
two rows; on an empty input the Go code would fault on rows[0], represented
here by an error value that no claim relies on. -/
def readPayments (rows : List (List String)) : Except String (List Payment) :=
  match rows with
  | [] => Except.error "index out of range"
  | header :: data =>
    let ci := resolveHeader header
    if ci.description = -1 then
      Except.error "description label was not found in sheet header"
    else if ci.paymentDate = -1 then
      Except.error "payment date was not found in sheet header"
    else readRows ci 0 data

/-! ## Helper lemmas -/

theorem athensOffset_cases (t : Int) :
    athensOffset t = 7200 ∨ athensOffset t = 10800 := by
  unfold athensOffset
  split
  · exact Or.inr rfl
  · exact Or.inl rfl

theorem offAtMidnight_cases (n : Int) :
    offAtMidnight n = 7200 ∨ offAtMidnight n = 10800 := by
  unfold offAtMidnight
  split
  · exact Or.inr rfl
  · exact Or.inl rfl

/-- Truncating an instant to its Athens midnight moves it back by less than
one day plus the offset spread. -/
theorem toDate_lb (t : Int) : t - 90000 ≤ ToDate t := by
  unfold ToDate midnightOfDay
  rcases offAtMidnight_cases (localDay t) with h | h <;> rw [h] <;>
    · unfold localDay
      rcases athensOffset_cases t with h2 | h2 <;> rw [h2] <;> omega

theorem subNs_sat_min (t u : Int) (h : (t - u) * 1000000000 < minDuration) :
    subNs t u = minDuration := by
  unfold subNs
  have hmax : ¬ ((t - u) * 1000000000 > maxDuration) := by
    unfold maxDuration
    unfold minDuration at h
    omega
  rw [if_neg hmax, if_pos h]

/-- A payment whose due date was never set: for every instant at or after
the epoch, the subtraction saturates at the minimum duration and the day
conversion yields -106751. -/
theorem diff_of_none (d : String) (now : Int) (h : 0 ≤ now) :
    DiffFromNowInDays (NewPayment d) now = -106751 := by
  unfold DiffFromNowInDays dueInstant NewPayment
  have hz : (Option.getD (none : Option Int) zeroTimeSec) = zeroTimeSec := rfl
  rw [hz]
  have hlb := toDate_lb now
  have hdiff : zeroTimeSec - ToDate now ≤ -62135506800 := by
    unfold zeroTimeSec at *
    omega
  have hmul : (zeroTimeSec - ToDate now) * 1000000000
      ≤ (-62135506800 : Int) * 1000000000 :=
    Int.mul_le_mul_of_nonneg_right hdiff (by norm_num)
  have hsat : (zeroTimeSec - ToDate now) * 1000000000 < minDuration := by
    unfold minDuration
    omega
  rw [subNs_sat_min _ _ hsat]
  decide

theorem diff_nondue (p : Payment) (now : Int) (hd : IsDue p = false)
    (h : 0 ≤ now) : DiffFromNowInDays p now = -106751 := by
  have hnone : p.due = none := by
    unfold IsDue at hd
    exact Option.not_isSome_iff_eq_none.mp (by simp [hd])
  cases p with
  | mk desc due =>
    cases hnone
    exact diff_of_none desc now h

theorem len_pos_ne_empty (s : String) (h : 0 < s.length) : s ≠ "" := by
  intro hc
  rw [hc] at h
  exact absurd h (by decide)

/-- The due-today summary is never the empty string. -/
theorem today_ne_empty (payments : List Payment) (now : Int) :
    SummarizePaymentsForToday payments now ≠ "" := by
  unfold SummarizePaymentsForToday
  dsimp only
  split
  · apply len_pos_ne_empty
    simp only [String.length_append]
    have : ("💸 Today: " : String).length = 9 := by decide
    omega
  · decide

/-- The coming-up summary is never the empty string. -/
theorem comingup_ne_empty (payments : List Payment) (w now : Int) :
    SummarizePaymentsComingUp payments w now ≠ "" := by
  unfold SummarizePaymentsComingUp
  dsimp only
  split
  · apply len_pos_ne_empty
    simp only [String.length_append]
    have : ("⏳ Coming Up (next " : String).length = 18 := by decide
    omega
  · apply len_pos_ne_empty
    simp only [String.length_append]
    have : ("😎 Nothing coming up (next " : String).length = 26 := by decide
    omega

/-- The total-pending summary, at window 30, is at least 49 characters. -/
theorem total30_length (payments : List Payment) (now : Int) :
    49 ≤ (SummarizeTotalPayments payments 30 now).length := by
  unfold SummarizeTotalPayments
  simp only [String.length_append]
  have h1 : ("💰 Total " : String).length = 8 := by decide
  have h2 : (" payments pending during the next " : String).length = 34 := by
    decide
  have h3 : (" days" : String).length = 5 := by decide
  have h4 : (toString (30 : Int)).length = 2 := by decide
  omega

/-- The total-pending summary is never the empty string. -/
theorem total_ne_empty (payments : List Payment) (w now : Int) :
    SummarizeTotalPayments payments w now ≠ "" := by
  unfold SummarizeTotalPayments
  apply len_pos_ne_empty
  simp only [String.length_append]
  have h1 : ("💰 Total " : String).length = 8 := by decide
  omega

/-- Structure of the assembled report: the delayed section is kept exactly
when non-empty, and the other three sections are always present, so the
sentinel branch never fires. -/
theorem report_shape (payments : List Payment) (now : Int) :
    buildReport payments now = goJoin "\n"
      ((if SummarizeDelayedPayments payments now = "" then []
        else [SummarizeDelayedPayments payments now])
       ++ [SummarizePaymentsForToday payments now,
           SummarizePaymentsComingUp payments 2 now,
           SummarizeTotalPayments payments 30 now]) := by
  unfold buildReport joinSections assembleSections
  rw [if_pos (today_ne_empty payments now),
    if_pos (comingup_ne_empty payments 2 now),
    if_pos (total_ne_empty payments 30 now)]
  by_cases hdel : SummarizeDelayedPayments payments now = ""
  · simp [hdel]
  · simp [hdel]

/-! ## Claims -/

/-- C4: the assembled report lists sections in the fixed order
Delayed, Due-Today, Coming-Up, Total-Pending, joined by a single newline;
the Due-Today and Coming-Up sections emit their fixed placeholder lines when
their buckets are empty, while an empty Delayed section is omitted; and a
section list of length zero is replaced by the single fixed
nothing-to-report line. -/
theorem c4_report_assembly (payments : List Payment) (now : Int) :
    (buildReport payments now = goJoin "\n"
      ((if SummarizeDelayedPayments payments now = "" then []
        else [SummarizeDelayedPayments payments now])
       ++ [SummarizePaymentsForToday payments now,
           SummarizePaymentsComingUp payments 2 now,
           SummarizeTotalPayments payments 30 now]))
    ∧ (FindPaymentsAt payments 0 now = [] →
        SummarizePaymentsForToday payments now = "😎 Nothing for today")
    ∧ (findComingUp payments 2 now = [] →
        SummarizePaymentsComingUp payments 2 now
          = "😎 Nothing coming up (next 2 days)")
    ∧ (FindPaymentsUntil payments (-1) now = [] →
        SummarizeDelayedPayments payments now = "")
    ∧ joinSections [] = "🕶  Nothing to report" := by
  refine ⟨report_shape payments now, ?_, ?_, ?_, rfl⟩
  · intro h
    unfold SummarizePaymentsForToday
    rw [h]
    rfl
  · intro h
    unfold SummarizePaymentsComingUp
    rw [h]
    rfl
  · intro h
    unfold SummarizeDelayedPayments
    rw [h]
    rfl

/-- C4 witness: the report for an empty payment list, via c4_report_assembly
at a concrete input. -/
theorem c4_report_assembly_witness :
    SummarizePaymentsForToday [] 0 = "😎 Nothing for today"
    ∧ buildReport [] 0 = "😎 Nothing for today\n😎 Nothing coming up (next 2 days)\n💰 Total 0 payments pending during the next 30 days" := by
  refine ⟨(c4_report_assembly [] 0).2.1 rfl, ?_⟩
  have h := (c4_report_assembly [] 0).1
  rw [h]
  rfl

/-- C6: findAt returns exactly the date-scheduled payments whose day delta
equals the target, findUntil exactly those with delta at most the bound,
and both preserve input order (the output is a sublist of the input).  The
restriction to date-scheduled payments is the blanket condition of the
classifier section of the specification. -/
theorem c6_find_exact_and_ordered (payments : List Payment)
    (t m now : Int) :
    (∀ p : Payment, p ∈ FindPaymentsAt payments t now
      ↔ p ∈ payments ∧ IsDue p = true ∧ DiffFromNowInDays p now = t)
    ∧ (FindPaymentsAt payments t now).Sublist payments
    ∧ (∀ p : Payment, p ∈ FindPaymentsUntil payments m now
      ↔ p ∈ payments ∧ IsDue p = true ∧ DiffFromNowInDays p now ≤ m)
    ∧ (FindPaymentsUntil payments m now).Sublist payments := by
  refine ⟨?_, List.filter_sublist _, ?_, List.filter_sublist _⟩ <;>
    intro p <;>
    simp [FindPaymentsAt, FindPaymentsUntil, List.mem_filter, and_assoc]

/-- C6 witness: the scenario of the specification, rows foo, bar, baz due
2023-11-04 to 2023-11-06 with now on 2023-11-05, via the theorem. -/
theorem c6_find_exact_and_ordered_witness :
    (WithDueDate (NewPayment "bar") 1699142400)
      ∈ FindPaymentsAt
        [WithDueDate (NewPayment "foo") 1699056000,
         WithDueDate (NewPayment "bar") 1699142400,
         WithDueDate (NewPayment "baz") 1699228800] 0 1699142400 := by
  have h := (c6_find_exact_and_ordered
    [WithDueDate (NewPayment "foo") 1699056000,
     WithDueDate (NewPayment "bar") 1699142400,
     WithDueDate (NewPayment "baz") 1699228800] 0 0 1699142400).1
    (WithDueDate (NewPayment "bar") 1699142400)
  exact h.mpr (by refine ⟨by decide, by decide, by decide⟩)

/-- C7: a payment that is not date-scheduled is never contained in the
result of FindPaymentsAt, FindPaymentsUntil, or the coming-up selection,
for any parameters and any reference instant. -/
theorem c7_nondue_never_selected (p : Payment) (payments : List Payment)
    (t m w now : Int) (hd : IsDue p = false) :
    p ∉ FindPaymentsAt payments t now
    ∧ p ∉ FindPaymentsUntil payments m now
    ∧ p ∉ findComingUp payments w now := by
  refine ⟨?_, ?_, ?_⟩ <;>
    simp [FindPaymentsAt, FindPaymentsUntil, findComingUp,
      List.mem_filter, hd]

/-- C7 witness: a payment with no due date is excluded even when the target
delta is the saturated value its diff evaluates to. -/
theorem c7_nondue_never_selected_witness :
    (NewPayment "a") ∉ FindPaymentsAt [NewPayment "a"] (-106751) 1699142400 :=
  (c7_nondue_never_selected (NewPayment "a") [NewPayment "a"]
    (-106751) 0 2 1699142400 (by decide)).1

/-- C9: the assembled report is never the empty string and never the
nothing-to-report sentinel, because the due-today, coming-up, and
total-pending sections are always present and non-empty, so the
zero-sections branch is unreachable. -/
theorem c9_report_nonempty (payments : List Payment) (now : Int) :
    buildReport payments now ≠ ""
    ∧ buildReport payments now ≠ "🕶  Nothing to report" := by
  have hlen : 49 ≤ (buildReport payments now).length := by
    rw [report_shape payments now]
    by_cases hdel : SummarizeDelayedPayments payments now = ""
    · simp only [hdel, if_pos, List.nil_append, goJoin]
      simp only [String.length_append]
      have := total30_length payments now
      omega
    · rw [if_neg hdel]
      simp only [List.cons_append, List.nil_append, goJoin]
      simp only [String.length_append]
      have := total30_length payments now
      omega
  constructor
  · intro h
    rw [h] at hlen
    exact absurd hlen (by decide)
  · intro h
    rw [h] at hlen
    exact absurd hlen (by decide)

/-- C9 witness: concrete instance of the theorem. -/
theorem c9_report_nonempty_witness :
    buildReport [] 0 ≠ "🕶  Nothing to report" := (c9_report_nonempty [] 0).2

/-- C2 counterexample: a payment with no due date (IsDue false) contributes
to the total-pending count at window 30, while the date-scheduled selection
at the same window is empty — so the reported total does count
non-date-scheduled payments, contrary to the claim. -/
theorem c2_counterexample :
    IsDue (NewPayment "a") = false
    ∧ totalPendingCount [NewPayment "a"] 30 1699142400 = 1
    ∧ (FindPaymentsUntil [NewPayment "a"] 30 1699142400).length = 0 := by
  refine ⟨by decide, by decide, by decide⟩

/-- C2 amended: the total-pending count includes every payment whose day
delta is at most the window, date-scheduled or not; since a payment without
a due date has the saturated delta -106751 for any instant at or after the
epoch, the count equals the date-scheduled payments within the window plus
all non-date-scheduled payments, for every window at least -106751. -/
theorem c2_total_count_includes_nondue (payments : List Payment)
    (w now : Int) (hnow : 0 ≤ now) (hw : -106751 ≤ w) :
    totalPendingCount payments w now
      = (FindPaymentsUntil payments w now).length
        + payments.countP (fun p => !IsDue p) := by
  induction payments with
  | nil => rfl
  | cons p ps ih =>
    unfold totalPendingCount FindPaymentsUntil at *
    rw [List.countP_cons, List.countP_cons, List.filter_cons]
    cases hdue : IsDue p with
    | false =>
      have hd : DiffFromNowInDays p now = -106751 := diff_nondue p now hdue hnow
      have hcond : decide (DiffFromNowInDays p now ≤ w) = true := by
        rw [hd]
        exact decide_eq_true hw
      simp [hdue, hcond, ih]
      try omega
    | true =>
      cases hc : decide (DiffFromNowInDays p now ≤ w) with
      | false =>
        simp [hdue, hc, ih]
        try omega
      | true =>
        simp [hdue, hc, ih]
        try omega

/-- C2 witness: the amended theorem applied at a concrete list holding one
non-date-scheduled and one date-scheduled payment. -/
theorem c2_total_count_includes_nondue_witness :
    totalPendingCount [NewPayment "a", WithDueDate (NewPayment "b") 1699142400]
        30 1699142400
      = (FindPaymentsUntil
          [NewPayment "a", WithDueDate (NewPayment "b") 1699142400]
          30 1699142400).length
        + ([NewPayment "a", WithDueDate (NewPayment "b") 1699142400].countP
            (fun p => !IsDue p)) :=
  c2_total_count_includes_nondue _ 30 1699142400 (by decide) (by decide)

/-- C10 counterexample: for a payment with no due date the code returns the
saturated value -106751, which does not satisfy the threshold
delta ≤ -200000, and the total-pending count at window -200000 excludes such
a payment — so it does not satisfy every threshold of the form
delta ≤ maxDiff. -/
theorem c10_threshold_counterexample :
    DiffFromNowInDays (NewPayment "a") 1699142400 = -106751
    ∧ ¬ (DiffFromNowInDays (NewPayment "a") 1699142400 ≤ -200000)
    ∧ totalPendingCount [NewPayment "a"] (-200000) 1699142400 = 0 := by
  refine ⟨by decide, by decide, by decide⟩

/-- C10 amended: diffFromNowInDays is total on a payment with no due date;
the subtraction from the zero time value saturates at the minimum 64-bit
duration, so the result is exactly -106751 for every reference instant at or
after the epoch — a very large negative integer, which satisfies every
threshold delta ≤ maxDiff with maxDiff at least -106751 (in particular all
thresholds the program uses). -/
theorem c10_nondue_diff_saturated (desc : String) (now : Int)
    (hnow : 0 ≤ now) :
    IsDue (NewPayment desc) = false
    ∧ DiffFromNowInDays (NewPayment desc) now = -106751
    ∧ ∀ maxDiff : Int, -106751 ≤ maxDiff →
        DiffFromNowInDays (NewPayment desc) now ≤ maxDiff := by
  refine ⟨rfl, diff_of_none desc now hnow, ?_⟩
  intro maxDiff hm
  rw [diff_of_none desc now hnow]
  exact hm

/-- C10 witness: the amended theorem at a concrete instant and the
delayed-bucket threshold -1. -/
theorem c10_nondue_diff_saturated_witness :
    DiffFromNowInDays (NewPayment "a") 1699142400 ≤ -1 :=
  (c10_nondue_diff_saturated "a" 1699142400 (by decide)).2.2 (-1) (by decide)

/-- C3 counterexample: across the 2023 spring-forward transition of
Europe/Athens the interval between consecutive midnights is 23 hours, so a
payment due 2023-03-27, one calendar day after the reference instant
2023-03-26 00:00 UTC, gets day delta 0 instead of a positive exact day
count. -/
theorem c3_dst_counterexample :
    DiffFromNowInDays (WithDueDate (NewPayment "a") 1679875200) 1679788800 = 0
    ∧ localDay 1679875200 - localDay 1679788800 = 1 := by
  refine ⟨by decide, by decide⟩

/-- C3 amended: when the UTC offsets at the two Athens midnights coincide
(no daylight-saving transition between the due date and the normalized now)
and the gap stays inside the 64-bit duration range, the result is the exact
Athens calendar-day difference — positive for future, zero for today,
negative for past; across a transition the 24-hour truncation can be off by
one, as in the counterexample. -/
theorem c3_day_delta_exact_without_transition (p : Payment) (t now : Int)
    (hoff : offAtMidnight (localDay t) = offAtMidnight (localDay now))
    (h1 : -100000 ≤ localDay t - localDay now)
    (h2 : localDay t - localDay now ≤ 100000) :
    DiffFromNowInDays (WithDueDate p t) now = localDay t - localDay now := by
  unfold DiffFromNowInDays dueInstant WithDueDate ToDate
  simp only [Option.getD_some]
  unfold midnightOfDay subNs durationToDays
  rw [hoff]
  have e1 : (localDay t * 86400 - offAtMidnight (localDay now)
        - (localDay now * 86400 - offAtMidnight (localDay now))) * 1000000000
      = (localDay t - localDay now) * 86400000000000 := by ring
  rw [e1]
  rw [if_neg (by unfold maxDuration; omega), if_neg (by unfold minDuration; omega)]
  exact Int.mul_tdiv_cancel _ (by norm_num)

/-- C3 witness: one ordinary day apart in November 2023, no transition in
between, delta exactly 1. -/
theorem c3_day_delta_exact_witness :
    DiffFromNowInDays (WithDueDate (NewPayment "x") 1699142400) 1699056000
      = 1 :=
  (c3_day_delta_exact_without_transition (NewPayment "x") 1699142400 1699056000
    (by decide) (by decide) (by decide)).trans (by decide)

/-- C8: a data row whose payment-date cell is non-empty contributes nothing
to the ingested list and raises no error, whatever its due-date cell holds
(even a malformed date): processing the remaining rows gives the same result
with or without that row.  The three hypotheses are the row-shape conditions
under which the enclosing shape checks pass. -/
theorem c8_settled_row_dropped (ci : ColumnIndices) (idx : Int)
    (row : List String) (rest : List (List String))
    (h1 : ci.description ≤ (row.length : Int) - 1)
    (h2 : ci.dueDate ≤ (row.length : Int) - 1)
    (h3 : ci.paymentDate ≤ (row.length : Int) - 1)
    (h4 : cellAt row ci.paymentDate ≠ "") :
    readRows ci idx (row :: rest) = readRows ci (idx + 1) rest := by
  have hp : processRow ci idx row = Except.ok none := by
    unfold processRow
    rw [if_neg (by omega), if_neg (by omega), if_neg (by omega)]
    dsimp only
    rw [if_pos h4]
  simp [readRows, hp]

/-- C8 witness: a row with a malformed due date but a non-empty payment date
is dropped without a parse error. -/
theorem c8_settled_row_dropped_witness :
    readRows ⟨0, 1, 2⟩ 0 [["A", "not-a-date", "paid"]]
      = Except.ok ([] : List Payment) := by
  have h := c8_settled_row_dropped ⟨0, 1, 2⟩ 0 ["A", "not-a-date", "paid"] []
    (by decide) (by decide) (by decide) (by decide)
  rw [h]
  rfl

/-- C1: evaluation of readPayments at the failing input.  A row whose
due-date cell is the empty string (payment date also empty) makes the final
revision of the code call time.Parse on the empty string, which fails, so
the whole ingestion aborts — whereas a well-formed due date is ingested and
a malformed non-empty one aborts as the claim says.  The claim (and the
specification, and every earlier revision of this function) expects the
empty cell to yield a payment with only the description. -/
theorem c1_empty_due_cell_aborts :
    readPayments [["Description", "Due Date", "Payment Date"], ["A", "", ""]]
      = Except.error
          "failed to parse due date value : cannot parse as 2006-01-02"
    ∧ readPayments
        [["Description", "Due Date", "Payment Date"], ["A", "2023-11-05", ""]]
      = Except.ok [WithDueDate (NewPayment "A") 1699142400]
    ∧ readPayments
        [["Description", "Due Date", "Payment Date"], ["A", "not-a-date", ""]]
      = Except.error
          "failed to parse due date value not-a-date: cannot parse as 2006-01-02" := by
  refine ⟨rfl, ?_, rfl⟩
  show Except.ok _ = _
  have : WithDueDate (NewPayment "A") 1699142400
      = { description := "A", due := some 1699135200 } := by decide
  rw [this]
  rfl

/-- C5 counterexample: the due-date column is optional (the header may omit
it), yet a row shorter than its resolved index aborts ingestion: header
Description, Payment Date, Due Date with the two-cell row A, empty aborts
with the due-date row-shape error even though the payment-date cell is
present and empty. -/
theorem c5_optional_column_abort_counterexample :
    readPayments [["Description", "Payment Date", "Due Date"], ["A", ""]]
      = Except.error "can not read due date (column=2) in row 0" := by
  rfl

/-- C5 amended: a data row shorter than any resolved column index — required
or not, including the optional due-date column — aborts ingestion with an
error naming the row index and the column.  Stated for the first data row:
first for the description column, then for the due-date column when the
description cell is present. -/
theorem c5_short_row_aborts (header row : List String)
    (rest : List (List String))
    (hdesc : (resolveHeader header).description ≠ -1)
    (hpay : (resolveHeader header).paymentDate ≠ -1) :
    ((resolveHeader header).description > (row.length : Int) - 1 →
      readPayments (header :: row :: rest)
        = Except.error ("can not read description (column="
            ++ toString (resolveHeader header).description
            ++ ") in row " ++ toString (0 : Int)))
    ∧ ((resolveHeader header).description ≤ (row.length : Int) - 1 →
       (resolveHeader header).dueDate > (row.length : Int) - 1 →
       readPayments (header :: row :: rest)
         = Except.error ("can not read due date (column="
             ++ toString (resolveHeader header).dueDate
             ++ ") in row " ++ toString (0 : Int))) := by
  constructor
  · intro hshort
    unfold readPayments
    dsimp only
    rw [if_neg hdesc, if_neg hpay]
    unfold readRows processRow
    rw [if_pos hshort]
  · intro hdlen hshort
    unfold readPayments
    dsimp only
    rw [if_neg hdesc, if_neg hpay]
    unfold readRows processRow
    rw [if_neg (by omega), if_pos hshort]

/-- C5 witness: the amended theorem at a concrete header with the
description column resolved at index 0 and an empty data row. -/
theorem c5_short_row_aborts_witness :
    readPayments [["Description", "Payment Date", "Due Date"],
        ([] : List String)]
      = Except.error "can not read description (column=0) in row 0" := by
  have h := (c5_short_row_aborts ["Description", "Payment Date", "Due Date"]
    [] [] (by decide) (by decide)).1 (by decide)
  rw [h]
  exact congrArg Except.error (by decide)
